import Mathlib

/-
Verification of the appstream metadata core: a shallow embedding of the
collection / component / screenshot data model, its decode layer and its
builder layer, with theorems settling the specified properties.

The modules collection.rs and screenshot.rs are embedded from their source.
The enumeration, identifier, translatable-string and builder modules they
reference are not part of the provided sources; their definitions below are
modelled from the specification (each such definition says so in its doc
comment).
-/

set_option autoImplicit false

/-- Error taxonomy of the decode layer (spec section 7): document syntax
errors, identifier or URL grammar violations, and missing required fields. -/
inductive DecodeError where
  | malformedDocument
  | validationError (input : String)
  | missingRequiredField (path : String)
deriving DecidableEq

/-- Abstract XML-family node: an element with a name, attributes and child
nodes, or character data. This is the decoded-text input of the decode layer. -/
inductive Node where
  | elem (name : String) (attrs : List (String × String)) (children : List Node)
  | text (s : String)

/-- First-match lookup in an association list keyed by strings. -/
def assocFind {α : Type} : List (String × α) → String → Option α
  | [], _ => none
  | (k, v) :: rest, t => if t = k then some v else assocFind rest t

/-- The value of an attribute of an element, if present. -/
def Node.attr? : Node → String → Option String
  | .elem _ attrs _, k => assocFind attrs k
  | .text _, _ => none

/-- The child elements carrying the given element name, in document order. -/
def Node.childrenNamed : Node → String → List Node
  | .elem _ _ cs, k =>
      cs.filter (fun c => match c with
        | .elem n _ _ => n == k
        | .text _ => false)
  | .text _, _ => []

/-- The first child element carrying the given name, if any. -/
def Node.childNamed? (n : Node) (k : String) : Option Node :=
  (n.childrenNamed k).head?

/-- The character-data body of an element (serde's dollar-value field):
the joined text children, or none when the element has no text child. -/
def Node.bodyText? : Node → Option String
  | .elem _ _ cs =>
      let ts := cs.filterMap (fun c => match c with
        | .text s => some s
        | .elem _ _ _ => none)
      if ts.isEmpty then none else some (String.join ts)
  | .text s => some s

/-- Splits a character list at the first scheme separator "://", returning
the characters before it and after it. -/
def splitScheme : List Char → Option (List Char × List Char)
  | [] => none
  | ':' :: '/' :: '/' :: rest => some ([], rest)
  | c :: rest =>
      match splitScheme rest with
      | none => none
      | some (sch, tl) => some (c :: sch, tl)

/-- Modelled from the spec: URL grammar validation (the url handling module
is not among the provided sources). A string is a well-formed URL when it has
a nonempty alphabetic scheme, the "://" separator, and a nonempty remainder. -/
def validUrl (s : String) : Bool :=
  match splitScheme s.data with
  | some (sch, rest) => !sch.isEmpty && sch.all Char.isAlpha && !rest.isEmpty
  | none => false

/-- A validated URL: the wrapper holds the raw string that passed the grammar
check, and equality is string equality. -/
structure Url where
  raw : String
deriving DecidableEq

/-- URL construction from a string: succeeds exactly on grammatical URLs. -/
def Url.parse (s : String) : Except DecodeError Url :=
  if validUrl s then .ok ⟨s⟩ else .error (.validationError s)

/-- Characters allowed inside a component identifier. -/
def isIdChar (c : Char) : Bool :=
  c.isAlphanum || c == '.' || c == '-' || c == '_'

/-- A validated component identifier wrapping its string form
(collection.rs accesses the wrapped string as field 0). -/
structure AppId where
  val : String
deriving DecidableEq

/-- Modelled from the spec: AppId construction (the types module is not among
the provided sources). Construction succeeds on a nonempty string of allowed
identifier characters and otherwise fails with a validation error naming the
input. The multi-segment (dotted) requirement that spec section 4.2 states is
relaxed here, because the in-source collection tests unwrap AppId construction
on single-segment inputs such as adobe-release-x86_64 (collection.rs,
generic_collection test). -/
def AppId.try_from (s : String) : Except DecodeError AppId :=
  if !s.data.isEmpty && s.data.all isIdChar then .ok ⟨s⟩
  else .error (.validationError s)

/-- Splits a character list on the dot character into segments. -/
def splitSegs : List Char → List (List Char)
  | [] => [[]]
  | c :: rest =>
      match splitSegs rest with
      | [] => [[c]]
      | s :: ss => if c = '.' then [] :: s :: ss else (c :: s) :: ss

/-- The identifier grammar exactly as the spec sentence states it (non-empty,
dot-separated, at least two segments, each segment nonempty and of allowed
characters); kept separate so the spec sentence can be compared with the
accepted language of AppId construction. -/
def specIdGrammar (s : String) : Bool :=
  let segs := splitSegs s.data
  decide (2 ≤ segs.length) && segs.all (fun seg => !seg.isEmpty && seg.all isIdChar)

/-- Sorted insert-or-replace into a string-keyed association list; models the
ordered-map storage of localized values, so equality is independent of
insertion order. -/
def insertSorted {α : Type} : List (String × α) → String → α → List (String × α)
  | [], k, v => [(k, v)]
  | (k', v') :: rest, k, v =>
      if k = k' then (k, v) :: rest
      else if k < k' then (k, v) :: (k', v') :: rest
      else (k', v') :: insertSorted rest k v

/-- Sorted insert that appends one string to the list stored at a key,
creating a singleton list for a fresh key; used by the list-variant merge. -/
def appendSorted : List (String × List String) → String → String → List (String × List String)
  | [], k, v => [(k, [v])]
  | (k', vs) :: rest, k, v =>
      if k = k' then (k', vs ++ [v]) :: rest
      else if k < k' then (k, [v]) :: (k', vs) :: rest
      else (k', vs) :: appendSorted rest k v

/-- Modelled from the spec: the translatable string (localized text) of the
types module, a mapping from locale tag to text in which the untagged default
occupies the reserved key "default". -/
structure TranslatableString where
  entries : List (String × String)
deriving DecidableEq

/-- Creates a localized text whose default is the given value and whose locale
mapping is otherwise empty. -/
def TranslatableString.with_default (v : String) : TranslatableString :=
  ⟨[("default", v)]⟩

/-- Adds or replaces the entry for one locale tag. -/
def TranslatableString.and_locale (t : TranslatableString) (tag v : String) : TranslatableString :=
  ⟨insertSorted t.entries tag v⟩

/-- Lookup by locale tag. -/
def TranslatableString.get? (t : TranslatableString) (tag : String) : Option String :=
  assocFind t.entries tag

/-- Modelled from the spec: the translatable vector (localized keyword list),
a mapping from locale tag to an ordered list of strings with the untagged
default under the reserved key "default". -/
structure TranslatableVec where
  entries : List (String × List String)
deriving DecidableEq

/-- Creates a localized list whose default is the given sequence. -/
def TranslatableVec.with_default (vs : List String) : TranslatableVec :=
  ⟨[("default", vs)]⟩

/-- Adds or replaces the list for one locale tag. -/
def TranslatableVec.and_locale (t : TranslatableVec) (tag : String) (vs : List String) : TranslatableVec :=
  ⟨insertSorted t.entries tag vs⟩

/-- Lookup by locale tag. -/
def TranslatableVec.get? (t : TranslatableVec) (tag : String) : Option (List String) :=
  assocFind t.entries tag

/-- One localized source element: its optional locale tag and its content. -/
abbrev LocElem := Option String × String

/-- Modelled from the spec (section 4.1): the merge of repeated same-named
localized elements in document order — an untagged element supplies the
default, a tagged element supplies that locale's override, and a later
occurrence of the same tag overwrites the earlier one. -/
def mergeTranslatable (elems : List LocElem) : TranslatableString :=
  ⟨elems.foldl (fun acc e => insertSorted acc (e.1.getD "default") e.2) []⟩

/-- Modelled from the spec (section 4.1, list variant): the merge of repeated
localized list items in document order, appending each item to the sequence
of its locale (untagged items extend the default sequence). -/
def mergeTranslatableVec (elems : List LocElem) : TranslatableVec :=
  ⟨elems.foldl (fun acc e => appendSorted acc (e.1.getD "default") e.2) []⟩

/-- The localized repeats of a named child element: each child's xml:lang
attribute and body, in document order. -/
def locElems (n : Node) (k : String) : List LocElem :=
  (n.childrenNamed k).map (fun c => (c.attr? "xml:lang", c.bodyText?.getD ""))

/-- Modelled from the spec: the open category enumeration (enums module not
among the provided sources) — known desktop-entry category variants plus the
catch-all Unknown carrying the unrecognized token. -/
inductive Category where
  | AudioVideo
  | Development
  | Education
  | Game
  | Graphics
  | Literature
  | Network
  | Office
  | Science
  | Settings
  | System
  | Utility
  | Unknown (token : String)
deriving DecidableEq

/-- The fixed token table of the category enumeration. -/
def categoryTable : List (String × Category) :=
  [("AudioVideo", .AudioVideo), ("Development", .Development),
   ("Education", .Education), ("Game", .Game), ("Graphics", .Graphics),
   ("Literature", .Literature), ("Network", .Network), ("Office", .Office),
   ("Science", .Science), ("Settings", .Settings), ("System", .System),
   ("Utility", .Utility)]

/-- Whether a token is a recognized category name. -/
def Category.isKnownTok (s : String) : Bool :=
  (assocFind categoryTable s).isSome

/-- Decoding a category token: a recognized token gives its variant, anything
else gives the catch-all carrying the token verbatim. -/
def Category.decode (s : String) : Category :=
  (assocFind categoryTable s).getD (.Unknown s)

/-- Encoding a category back to its token. -/
def Category.encode : Category → String
  | .AudioVideo => "AudioVideo"
  | .Development => "Development"
  | .Education => "Education"
  | .Game => "Game"
  | .Graphics => "Graphics"
  | .Literature => "Literature"
  | .Network => "Network"
  | .Office => "Office"
  | .Science => "Science"
  | .Settings => "Settings"
  | .System => "System"
  | .Utility => "Utility"
  | .Unknown t => t

/-- Modelled from the spec: the open component-kind enumeration, whose default
is the generic application kind and whose catch-all preserves the token. -/
inductive ComponentKind where
  | Generic
  | DesktopApplication
  | ConsoleApplication
  | WebApplication
  | Addon
  | Font
  | IconTheme
  | Codec
  | InputMethod
  | Firmware
  | Unknown (token : String)
deriving DecidableEq

/-- The fixed token table of the component-kind enumeration. -/
def componentKindTable : List (String × ComponentKind) :=
  [("generic", .Generic), ("desktop-application", .DesktopApplication),
   ("console-application", .ConsoleApplication),
   ("web-application", .WebApplication), ("addon", .Addon), ("font", .Font),
   ("icon-theme", .IconTheme), ("codec", .Codec),
   ("inputmethod", .InputMethod), ("firmware", .Firmware)]

/-- Whether a token is a recognized component-kind name. -/
def ComponentKind.isKnownTok (s : String) : Bool :=
  (assocFind componentKindTable s).isSome

/-- Decoding a component-kind token with catch-all fallback. -/
def ComponentKind.decode (s : String) : ComponentKind :=
  (assocFind componentKindTable s).getD (.Unknown s)

/-- Encoding a component kind back to its token. -/
def ComponentKind.encode : ComponentKind → String
  | .Generic => "generic"
  | .DesktopApplication => "desktop-application"
  | .ConsoleApplication => "console-application"
  | .WebApplication => "web-application"
  | .Addon => "addon"
  | .Font => "font"
  | .IconTheme => "icon-theme"
  | .Codec => "codec"
  | .InputMethod => "inputmethod"
  | .Firmware => "firmware"
  | .Unknown t => t

/-- Modelled from the spec: the open image-kind enumeration (source,
thumbnail, catch-all). -/
inductive ImageKind where
  | Source
  | Thumbnail
  | Unknown (token : String)
deriving DecidableEq

/-- The fixed token table of the image-kind enumeration. -/
def imageKindTable : List (String × ImageKind) :=
  [("source", .Source), ("thumbnail", .Thumbnail)]

/-- Whether a token is a recognized image-kind name. -/
def ImageKind.isKnownTok (s : String) : Bool :=
  (assocFind imageKindTable s).isSome

/-- Decoding an image-kind token with catch-all fallback. -/
def ImageKind.decode (s : String) : ImageKind :=
  (assocFind imageKindTable s).getD (.Unknown s)

/-- Encoding an image kind back to its token. -/
def ImageKind.encode : ImageKind → String
  | .Source => "source"
  | .Thumbnail => "thumbnail"
  | .Unknown t => t

/-- Modelled from the spec: the icon union — stock and cached icons carry a
name, remote and local icons carry a location and optional dimensions, and the
catch-all preserves the unrecognized kind token with its payload. -/
inductive Icon where
  | Stock (name : String)
  | Cached (name : String)
  | Remote (url : Url) (width : Option Nat) (height : Option Nat)
  | Local (path : String) (width : Option Nat) (height : Option Nat)
  | Unknown (kind : String) (payload : String)
deriving DecidableEq

/-- The recognized icon kind tokens. -/
def Icon.isKnownKind (s : String) : Bool :=
  s == "stock" || s == "cached" || s == "remote" || s == "local"

/-- Decoding an icon from its kind token, body payload and optional
dimensions; only the remote kind can fail (URL grammar), every unrecognized
kind token decodes to the catch-all. -/
def Icon.decode (kind body : String) (w h : Option Nat) : Except DecodeError Icon :=
  if kind = "stock" then .ok (.Stock body)
  else if kind = "cached" then .ok (.Cached body)
  else if kind = "remote" then (Url.parse body).map (fun u => .Remote u w h)
  else if kind = "local" then .ok (.Local body w h)
  else .ok (.Unknown kind body)

/-- The kind token an icon encodes to. -/
def Icon.kindToken : Icon → String
  | .Stock _ => "stock"
  | .Cached _ => "cached"
  | .Remote _ _ _ => "remote"
  | .Local _ _ _ => "local"
  | .Unknown t _ => t

/-- Modelled from the spec: the open project-URL enumeration, each variant
carrying its target URL and the catch-all also preserving the kind token. -/
inductive ProjectUrl where
  | Homepage (url : Url)
  | BugTracker (url : Url)
  | Faq (url : Url)
  | Help (url : Url)
  | Donation (url : Url)
  | Translate (url : Url)
  | Contact (url : Url)
  | Unknown (kind : String) (url : Url)
deriving DecidableEq

/-- The recognized project-URL kind tokens. -/
def ProjectUrl.isKnownKind (s : String) : Bool :=
  s == "homepage" || s == "bugtracker" || s == "faq" || s == "help" ||
  s == "donation" || s == "translate" || s == "contact"

/-- Decoding a project URL from its kind token and target. -/
def ProjectUrl.decode (kind : String) (u : Url) : ProjectUrl :=
  if kind = "homepage" then .Homepage u
  else if kind = "bugtracker" then .BugTracker u
  else if kind = "faq" then .Faq u
  else if kind = "help" then .Help u
  else if kind = "donation" then .Donation u
  else if kind = "translate" then .Translate u
  else if kind = "contact" then .Contact u
  else .Unknown kind u

/-- The kind token a project URL encodes to. -/
def ProjectUrl.kindToken : ProjectUrl → String
  | .Homepage _ => "homepage"
  | .BugTracker _ => "bugtracker"
  | .Faq _ => "faq"
  | .Help _ => "help"
  | .Donation _ => "donation"
  | .Translate _ => "translate"
  | .Contact _ => "contact"
  | .Unknown t _ => t

/-- Modelled from the spec: the open provided-item enumeration, keyed by the
name of the providing element, with the catch-all preserving that name. -/
inductive Provide where
  | Library (name : String)
  | Binary (name : String)
  | Font (name : String)
  | Modalias (name : String)
  | Firmware (name : String)
  | Python2 (name : String)
  | Python3 (name : String)
  | Dbus (name : String)
  | Codec (name : String)
  | Unknown (kind : String) (payload : String)
deriving DecidableEq

/-- The recognized provide kind tokens. -/
def Provide.isKnownKind (s : String) : Bool :=
  s == "library" || s == "binary" || s == "font" || s == "modalias" ||
  s == "firmware" || s == "python2" || s == "python3" || s == "dbus" ||
  s == "codec"

/-- Decoding a provided item from its element name and body. -/
def Provide.decode (kind payload : String) : Provide :=
  if kind = "library" then .Library payload
  else if kind = "binary" then .Binary payload
  else if kind = "font" then .Font payload
  else if kind = "modalias" then .Modalias payload
  else if kind = "firmware" then .Firmware payload
  else if kind = "python2" then .Python2 payload
  else if kind = "python3" then .Python3 payload
  else if kind = "dbus" then .Dbus payload
  else if kind = "codec" then .Codec payload
  else .Unknown kind payload

/-- The kind token a provided item encodes to. -/
def Provide.kindToken : Provide → String
  | .Library _ => "library"
  | .Binary _ => "binary"
  | .Font _ => "font"
  | .Modalias _ => "modalias"
  | .Firmware _ => "firmware"
  | .Python2 _ => "python2"
  | .Python3 _ => "python3"
  | .Dbus _ => "dbus"
  | .Codec _ => "codec"
  | .Unknown t _ => t

/-- Modelled from the spec: a release of a component (only the required
version is relevant to the provided sources and tests). -/
structure Release where
  version : String
deriving DecidableEq

/-- An image of a screenshot (screenshot.rs): kind from the type attribute
(no default in the source), independent optional width and height, and the
required target URL carried as the element body. -/
structure Image where
  kind : ImageKind
  width : Option Nat
  height : Option Nat
  url : Url
deriving DecidableEq

/-- A video of a screenshot (screenshot.rs): optional width, height, codec and
container, and the required target URL carried as the element body. -/
structure Video where
  width : Option Nat
  height : Option Nat
  codec : Option String
  container : Option String
  url : Url
deriving DecidableEq

/-- A screenshot (screenshot.rs): the is-default flag decoded from the type
attribute, an optional localized caption, and ordered image and video lists. -/
structure Screenshot where
  is_default : Bool
  caption : Option TranslatableString
  images : List Image
  videos : List Video
deriving DecidableEq

/-- Modelled from the spec (section 3): a component aggregate with its
identifier, localized name, kind, optional package and license fields,
localized summary and keywords, and its ordered url / screenshot / release /
provide / mimetype / category / icon lists. -/
structure Component where
  kind : ComponentKind
  id : AppId
  name : TranslatableString
  summary : Option TranslatableString
  pkgname : Option String
  project_license : Option String
  metadata_license : Option String
  keywords : Option TranslatableVec
  urls : List ProjectUrl
  screenshots : List Screenshot
  releases : List Release
  provides : List Provide
  mimetypes : List String
  categories : List Category
  icons : List Icon
deriving DecidableEq

/-- The top-level collection (collection.rs): required version, optional
origin, and the ordered component sequence. -/
structure Collection where
  version : String
  origin : Option String
  components : List Component
deriving DecidableEq

/-- Lookup of every component whose identifier equals the given id, in
document order (collection.rs, find_by_id): a filter over the component
sequence comparing the wrapped identifier strings. -/
def Collection.find_by_id (c : Collection) (id : AppId) : List Component :=
  c.components.filter (fun comp => comp.id.val == id.val)

/-- A required attribute: absent means a missing-required-field error. -/
def reqAttr (n : Node) (k : String) : Except DecodeError String :=
  match n.attr? k with
  | none => .error (.missingRequiredField k)
  | some v => .ok v

/-- Parse of an unsigned 32-bit decimal attribute value. -/
def parseNat? (s : String) : Option Nat :=
  if s.data.isEmpty then none
  else if s.data.all Char.isDigit then
    let n := s.data.foldl (fun acc c => acc * 10 + (c.toNat - 48)) 0
    if n < 2 ^ 32 then some n else none
  else none

/-- An optional numeric attribute: absent decodes to none, present but
non-numeric is a validation error. -/
def decodeOptNat (n : Node) (k : String) : Except DecodeError (Option Nat) :=
  match n.attr? k with
  | none => .ok none
  | some s =>
      match parseNat? s with
      | none => .error (.validationError s)
      | some v => .ok (some v)

/-- The required element body: absent is a missing-required-field error on
serde's dollar-value path. -/
def reqBody (n : Node) : Except DecodeError String :=
  match n.bodyText? with
  | none => .error (.missingRequiredField "$value")
  | some s => .ok s

/-- Modelled from the spec: the dedicated screenshot type rule of the decode
layer (de module not among the provided sources) — the token maps to the
boolean, true exactly for the default discriminator. -/
def screenshot_type_deserialize (s : String) : Bool :=
  s == "default"

/-- Decoding one image element (screenshot.rs, Image): the type attribute is
required (the source declares no serde default for the kind field), width and
height are independent optional numeric attributes, and the body is the
required URL. -/
def decodeImage (n : Node) : Except DecodeError Image := do
  let kindTok ← reqAttr n "type"
  let w ← decodeOptNat n "width"
  let h ← decodeOptNat n "height"
  let body ← reqBody n
  let url ← Url.parse body
  pure ⟨ImageKind.decode kindTok, w, h, url⟩

/-- Decoding one video element (screenshot.rs, Video): width, height, codec
and container are optional (absent decodes to none), the body is the required
URL. -/
def decodeVideo (n : Node) : Except DecodeError Video := do
  let w ← decodeOptNat n "width"
  let h ← decodeOptNat n "height"
  let codec := n.attr? "codec"
  let container := n.attr? "container"
  let body ← reqBody n
  let url ← Url.parse body
  pure ⟨w, h, codec, container, url⟩

/-- Decoding one screenshot element (screenshot.rs, Screenshot): the absent
type attribute decodes to the field default false, a present token goes
through the dedicated type rule; captions merge as localized text; image and
video children decode in document order. -/
def decodeScreenshot (n : Node) : Except DecodeError Screenshot := do
  let isDef :=
    match n.attr? "type" with
    | none => false
    | some t => screenshot_type_deserialize t
  let capElems := locElems n "caption"
  let caption := if capElems.isEmpty then none else some (mergeTranslatable capElems)
  let images ← (n.childrenNamed "image").mapM decodeImage
  let videos ← (n.childrenNamed "video").mapM decodeVideo
  pure ⟨isDef, caption, images, videos⟩

/-- Decoding one icon element: required kind token, optional dimensions,
body payload. -/
def decodeIcon (n : Node) : Except DecodeError Icon := do
  let kindTok ← reqAttr n "type"
  let w ← decodeOptNat n "width"
  let h ← decodeOptNat n "height"
  Icon.decode kindTok (n.bodyText?.getD "") w h

/-- Decoding one project-url element: required kind token and required URL
body. -/
def decodeProjectUrl (n : Node) : Except DecodeError ProjectUrl := do
  let kindTok ← reqAttr n "type"
  let body ← reqBody n
  let url ← Url.parse body
  pure (ProjectUrl.decode kindTok url)

/-- Decoding one release element: required version attribute. -/
def decodeRelease (n : Node) : Except DecodeError Release := do
  let v ← reqAttr n "version"
  pure ⟨v⟩

/-- Decoding one provided item from a child of the provides wrapper: the
element name is the kind token and the body the payload. -/
def decodeProvide (n : Node) : Option Provide :=
  match n with
  | .elem nm _ _ => some (Provide.decode nm (n.bodyText?.getD ""))
  | .text _ => none

/-- The children of an optional wrapper element: an absent wrapper yields the
empty list, never an error. -/
def wrapperChildren (n : Node) (wrapper inner : String) : List Node :=
  match n.childNamed? wrapper with
  | none => []
  | some w => w.childrenNamed inner

/-- Modelled from the spec (sections 3 to 4.6): decoding one component
element — required validated id, required localized name, defaulted open
kind, optional package / license / summary / keywords, and the ordered
url / screenshot / release / provide / mimetype / category / icon lists. -/
def decodeComponent (n : Node) : Except DecodeError Component := do
  let kind := ComponentKind.decode ((n.attr? "type").getD "generic")
  let idStr ←
    match (n.childNamed? "id").bind Node.bodyText? with
    | none => .error (.missingRequiredField "id")
    | some s => .ok s
  let id ← AppId.try_from idStr
  let nameElems := locElems n "name"
  let name ←
    match nameElems with
    | [] => .error (.missingRequiredField "name")
    | _ => .ok (mergeTranslatable nameElems)
  let sumElems := locElems n "summary"
  let summary := if sumElems.isEmpty then none else some (mergeTranslatable sumElems)
  let pkgname := (n.childNamed? "pkgname").bind Node.bodyText?
  let project_license := (n.childNamed? "project_license").bind Node.bodyText?
  let metadata_license := (n.childNamed? "metadata_license").bind Node.bodyText?
  let keywords :=
    match n.childNamed? "keywords" with
    | none => none
    | some kw =>
        some (mergeTranslatableVec
          ((kw.childrenNamed "keyword").map
            (fun c => (c.attr? "xml:lang", c.bodyText?.getD ""))))
  let urls ← (n.childrenNamed "url").mapM decodeProjectUrl
  let screenshots ← (wrapperChildren n "screenshots" "screenshot").mapM decodeScreenshot
  let releases ← (wrapperChildren n "releases" "release").mapM decodeRelease
  let provides :=
    match n.childNamed? "provides" with
    | none => []
    | some w =>
        match w with
        | .elem _ _ cs => cs.filterMap decodeProvide
        | .text _ => []
  let mimetypes := (wrapperChildren n "mimetypes" "mimetype").map (fun c => c.bodyText?.getD "")
  let categories := (wrapperChildren n "categories" "category").map
    (fun c => Category.decode (c.bodyText?.getD ""))
  let icons ← (n.childrenNamed "icon").mapM decodeIcon
  pure ⟨kind, id, name, summary, pkgname, project_license, metadata_license,
        keywords, urls, screenshots, releases, provides, mimetypes, categories, icons⟩

/-- Decoding the top-level collection element (collection.rs, Collection):
the version attribute is required, the origin attribute is optional and
absent decodes to none, and the component children decode in document order
with an absent sequence decoding to the empty list. -/
def decodeCollection (n : Node) : Except DecodeError Collection := do
  let version ← reqAttr n "version"
  let origin := n.attr? "origin"
  let components ← (n.childrenNamed "component").mapM decodeComponent
  pure ⟨version, origin, components⟩

/-- Modelled from the spec (section 4.7): the screenshot builder —.new() takes
no arguments, optional fields start from the screenshot defaults (is-default
true, no caption, empty media lists), setters return the builder, build is the
terminal step producing the immutable screenshot. -/
structure ScreenshotBuilder where
  s : Screenshot
deriving DecidableEq

/-- A fresh screenshot builder holding the screenshot defaults. -/
def ScreenshotBuilder.new : ScreenshotBuilder :=
  ⟨⟨true, none, [], []⟩⟩

/-- Setter for the is-default flag. -/
def ScreenshotBuilder.set_default (b : ScreenshotBuilder) (v : Bool) : ScreenshotBuilder :=
  ⟨{ b.s with is_default := v }⟩

/-- Setter for the localized caption. -/
def ScreenshotBuilder.caption (b : ScreenshotBuilder) (c : TranslatableString) : ScreenshotBuilder :=
  ⟨{ b.s with caption := some c }⟩

/-- Appends one image. -/
def ScreenshotBuilder.image (b : ScreenshotBuilder) (i : Image) : ScreenshotBuilder :=
  ⟨{ b.s with images := b.s.images ++ [i] }⟩

/-- Appends one video. -/
def ScreenshotBuilder.video (b : ScreenshotBuilder) (v : Video) : ScreenshotBuilder :=
  ⟨{ b.s with videos := b.s.videos ++ [v] }⟩

/-- The terminal build step of the screenshot builder. -/
def ScreenshotBuilder.build (b : ScreenshotBuilder) : Screenshot :=
  b.s

/-- Modelled from the spec (section 4.7): the release builder, whose required
version is the constructor argument. -/
structure ReleaseBuilder where
  r : Release
deriving DecidableEq

/-- A fresh release builder for the given version. -/
def ReleaseBuilder.new (v : String) : ReleaseBuilder :=
  ⟨⟨v⟩⟩

/-- The terminal build step of the release builder. -/
def ReleaseBuilder.build (b : ReleaseBuilder) : Release :=
  b.r

/-- Modelled from the spec (section 4.7): the component builder — the
pre-validated identifier and the localized default name are the constructor
arguments, every other field starts from its documented default and is set by
a chained setter, and build produces the immutable component. -/
structure ComponentBuilder where
  c : Component
deriving DecidableEq

/-- A fresh component builder for the given identifier and localized name:
kind defaults to the generic application kind, everything else to
none or the empty list. -/
def ComponentBuilder.new (id : AppId) (name : TranslatableString) : ComponentBuilder :=
  ⟨⟨.Generic, id, name, none, none, none, none, none, [], [], [], [], [], [], []⟩⟩

/-- Setter for the component kind. -/
def ComponentBuilder.kind (b : ComponentBuilder) (k : ComponentKind) : ComponentBuilder :=
  ⟨{ b.c with kind := k }⟩

/-- Setter for the package name. -/
def ComponentBuilder.pkgname (b : ComponentBuilder) (p : String) : ComponentBuilder :=
  ⟨{ b.c with pkgname := some p }⟩

/-- Setter for the project license. -/
def ComponentBuilder.project_license (b : ComponentBuilder) (l : String) : ComponentBuilder :=
  ⟨{ b.c with project_license := some l }⟩

/-- Setter for the metadata license. -/
def ComponentBuilder.metadata_license (b : ComponentBuilder) (l : String) : ComponentBuilder :=
  ⟨{ b.c with metadata_license := some l }⟩

/-- Setter for the localized summary. -/
def ComponentBuilder.summary (b : ComponentBuilder) (s : TranslatableString) : ComponentBuilder :=
  ⟨{ b.c with summary := some s }⟩

/-- Setter for the localized keyword lists. -/
def ComponentBuilder.keywords (b : ComponentBuilder) (k : TranslatableVec) : ComponentBuilder :=
  ⟨{ b.c with keywords := some k }⟩

/-- Appends one project URL. -/
def ComponentBuilder.url (b : ComponentBuilder) (u : ProjectUrl) : ComponentBuilder :=
  ⟨{ b.c with urls := b.c.urls ++ [u] }⟩

/-- Appends one screenshot. -/
def ComponentBuilder.screenshot (b : ComponentBuilder) (s : Screenshot) : ComponentBuilder :=
  ⟨{ b.c with screenshots := b.c.screenshots ++ [s] }⟩

/-- Appends one release. -/
def ComponentBuilder.release (b : ComponentBuilder) (r : Release) : ComponentBuilder :=
  ⟨{ b.c with releases := b.c.releases ++ [r] }⟩

/-- Appends one provided item. -/
def ComponentBuilder.provide (b : ComponentBuilder) (p : Provide) : ComponentBuilder :=
  ⟨{ b.c with provides := b.c.provides ++ [p] }⟩

/-- Appends one mimetype. -/
def ComponentBuilder.mimetype (b : ComponentBuilder) (m : String) : ComponentBuilder :=
  ⟨{ b.c with mimetypes := b.c.mimetypes ++ [m] }⟩

/-- Appends one category. -/
def ComponentBuilder.category (b : ComponentBuilder) (cat : Category) : ComponentBuilder :=
  ⟨{ b.c with categories := b.c.categories ++ [cat] }⟩

/-- Appends one icon. -/
def ComponentBuilder.icon (b : ComponentBuilder) (i : Icon) : ComponentBuilder :=
  ⟨{ b.c with icons := b.c.icons ++ [i] }⟩

/-- The terminal build step of the component builder. -/
def ComponentBuilder.build (b : ComponentBuilder) : Component :=
  b.c

/-- Modelled from the spec (section 4.7): the collection builder — the
required version is the constructor argument, origin and the component
sequence are set by chained setters, and build produces the immutable
collection. -/
structure CollectionBuilder where
  c : Collection
deriving DecidableEq

/-- A fresh collection builder for the given version. -/
def CollectionBuilder.new (v : String) : CollectionBuilder :=
  ⟨⟨v, none, []⟩⟩

/-- Setter for the origin. -/
def CollectionBuilder.origin (b : CollectionBuilder) (o : String) : CollectionBuilder :=
  ⟨{ b.c with origin := some o }⟩

/-- Appends one component. -/
def CollectionBuilder.component (b : CollectionBuilder) (comp : Component) : CollectionBuilder :=
  ⟨{ b.c with components := b.c.components ++ [comp] }⟩

/-- The terminal build step of the collection builder. -/
def CollectionBuilder.build (b : CollectionBuilder) : Collection :=
  b.c

/-- One setter call on a screenshot builder. -/
inductive ScreenshotOp where
  | set_default (v : Bool)
  | caption (c : TranslatableString)
  | image (i : Image)
  | video (v : Video)

/-- Applies one setter call to a screenshot builder. -/
def ScreenshotBuilder.applyOp (b : ScreenshotBuilder) : ScreenshotOp → ScreenshotBuilder
  | .set_default v => b.set_default v
  | .caption c => b.caption c
  | .image i => b.image i
  | .video v => b.video v

/-- One setter call on a component builder. -/
inductive ComponentOp where
  | kind (k : ComponentKind)
  | pkgname (p : String)
  | project_license (l : String)
  | metadata_license (l : String)
  | summary (s : TranslatableString)
  | keywords (k : TranslatableVec)
  | url (u : ProjectUrl)
  | screenshot (s : Screenshot)
  | release (r : Release)
  | provide (p : Provide)
  | mimetype (m : String)
  | category (c : Category)
  | icon (i : Icon)

/-- Applies one setter call to a component builder. -/
def ComponentBuilder.applyOp (b : ComponentBuilder) : ComponentOp → ComponentBuilder
  | .kind k => b.kind k
  | .pkgname p => b.pkgname p
  | .project_license l => b.project_license l
  | .metadata_license l => b.metadata_license l
  | .summary s => b.summary s
  | .keywords k => b.keywords k
  | .url u => b.url u
  | .screenshot s => b.screenshot s
  | .release r => b.release r
  | .provide p => b.provide p
  | .mimetype m => b.mimetype m
  | .category c => b.category c
  | .icon i => b.icon i

/-- One setter call on a collection builder. -/
inductive CollectionOp where
  | origin (o : String)
  | component (c : Component)

/-- Applies one setter call to a collection builder. -/
def CollectionBuilder.applyOp (b : CollectionBuilder) : CollectionOp → CollectionBuilder
  | .origin o => b.origin o
  | .component c => b.component c

/-- Shorthand for an element node. -/
def el (name : String) (attrs : List (String × String)) (children : List Node) : Node :=
  .elem name attrs children

/-- Shorthand for an element node holding only character data. -/
def leaf (name : String) (attrs : List (String × String)) (body : String) : Node :=
  .elem name attrs [.text body]

/-- Modelled from the spec (section 8) and the spec_example_collection test of
collection.rs: the canonical example collection document — version 0.10, the
desktop application org.mozilla.Firefox with localized name / summary /
keywords, a homepage URL, a default screenshot with two sized images, a
binary provide, eight mimetypes, two unrecognized categories and two icons;
the PulseAudio component with libraries, binaries and one release; and the
Linux Libertine font component. The document file itself is not among the
provided sources. -/
def specExampleDoc : Node :=
  el "components" [("version", "0.10")]
    [ el "component" [("type", "desktop-application")]
        [ leaf "id" [] "org.mozilla.Firefox"
        , leaf "pkgname" [] "firefox-bin"
        , leaf "name" [] "Firefox"
        , leaf "name" [("xml:lang", "en_GB")] "Firefoux"
        , leaf "summary" [] "Web browser"
        , leaf "summary" [("xml:lang", "fr_FR")] "Navigateur web"
        , leaf "project_license" [] "MPL-2.0"
        , el "keywords" []
            [ leaf "keyword" [] "internet"
            , leaf "keyword" [] "web"
            , leaf "keyword" [] "browser"
            , leaf "keyword" [("xml:lang", "fr_FR")] "navigateur" ]
        , leaf "icon" [("type", "stock")] "web-browser"
        , leaf "icon" [("type", "cached")] "firefox.png"
        , el "categories" []
            [ leaf "category" [] "network"
            , leaf "category" [] "webbrowser" ]
        , leaf "url" [("type", "homepage")] "https://www.mozilla.com"
        , el "screenshots" []
            [ el "screenshot" [("type", "default")]
                [ leaf "image" [("type", "source"), ("width", "800"), ("height", "600")]
                    "https://www.awesomedistro.example.org/en_US/firefox.desktop/main.png"
                , leaf "image" [("type", "thumbnail"), ("width", "200"), ("height", "150")]
                    "https://www.awesomedistro.example.org/en_US/firefox.desktop/main-small.png" ] ]
        , el "provides" [] [ leaf "binary" [] "firefox" ]
        , el "mimetypes" []
            [ leaf "mimetype" [] "text/html"
            , leaf "mimetype" [] "text/xml"
            , leaf "mimetype" [] "application/xhtml+xml"
            , leaf "mimetype" [] "application/vnd.mozilla.xul+xml"
            , leaf "mimetype" [] "text/mml"
            , leaf "mimetype" [] "application/x-xpinstall"
            , leaf "mimetype" [] "x-scheme-handler/http"
            , leaf "mimetype" [] "x-scheme-handler/https" ] ]
    , el "component" []
        [ leaf "id" [] "org.freedesktop.PulseAudio"
        , leaf "name" [] "PulseAudio"
        , leaf "summary" [] "The PulseAudio sound server"
        , leaf "project_license" [] "GPL-2.0+"
        , leaf "url" [("type", "homepage")] "https://www.freedesktop.org/wiki/Software/PulseAudio/"
        , el "provides" []
            [ leaf "library" [] "libpulse-simple.so.0"
            , leaf "library" [] "libpulse.so.0"
            , leaf "binary" [] "start-pulseaudio-kde"
            , leaf "binary" [] "start-pulseaudio-x11" ]
        , el "releases" [] [ el "release" [("version", "2.0")] [] ] ]
    , el "component" [("type", "font")]
        [ leaf "id" [] "org.linuxlibertine.LinuxLibertine"
        , leaf "name" [] "Linux Libertine"
        , leaf "summary" [] "Linux Libertine Open fonts"
        , el "provides" [] [ leaf "font" [] "LinLibertine_M.otf" ] ] ]

/-- The builder call sequence of the spec_example_collection test of
collection.rs, transcribed call for call (the two images are written through
the screenshot image setter with the same kind, url, width and height values). -/
def specExampleBuilt : Collection :=
  (CollectionBuilder.new "0.10"
    |>.component
      (ComponentBuilder.new ⟨"org.mozilla.Firefox"⟩
          (TranslatableString.with_default "Firefox" |>.and_locale "en_GB" "Firefoux")
        |>.kind .DesktopApplication
        |>.pkgname "firefox-bin"
        |>.project_license "MPL-2.0"
        |>.keywords
          (TranslatableVec.with_default ["internet", "web", "browser"]
            |>.and_locale "fr_FR" ["navigateur"])
        |>.summary
          (TranslatableString.with_default "Web browser"
            |>.and_locale "fr_FR" "Navigateur web")
        |>.url (.Homepage ⟨"https://www.mozilla.com"⟩)
        |>.screenshot
          (ScreenshotBuilder.new
            |>.image ⟨.Source, some 800, some 600,
                ⟨"https://www.awesomedistro.example.org/en_US/firefox.desktop/main.png"⟩⟩
            |>.image ⟨.Thumbnail, some 200, some 150,
                ⟨"https://www.awesomedistro.example.org/en_US/firefox.desktop/main-small.png"⟩⟩
            |>.build)
        |>.provide (.Binary "firefox")
        |>.mimetype "text/html"
        |>.mimetype "text/xml"
        |>.mimetype "application/xhtml+xml"
        |>.mimetype "application/vnd.mozilla.xul+xml"
        |>.mimetype "text/mml"
        |>.mimetype "application/x-xpinstall"
        |>.mimetype "x-scheme-handler/http"
        |>.mimetype "x-scheme-handler/https"
        |>.category (.Unknown "network")
        |>.category (.Unknown "webbrowser")
        |>.icon (.Stock "web-browser")
        |>.icon (.Cached "firefox.png")
        |>.build)
    |>.component
      (ComponentBuilder.new ⟨"org.freedesktop.PulseAudio"⟩
          (TranslatableString.with_default "PulseAudio")
        |>.summary (TranslatableString.with_default "The PulseAudio sound server")
        |>.project_license "GPL-2.0+"
        |>.url (.Homepage ⟨"https://www.freedesktop.org/wiki/Software/PulseAudio/"⟩)
        |>.provide (.Library "libpulse-simple.so.0")
        |>.provide (.Library "libpulse.so.0")
        |>.provide (.Binary "start-pulseaudio-kde")
        |>.provide (.Binary "start-pulseaudio-x11")
        |>.release (ReleaseBuilder.new "2.0" |>.build)
        |>.build)
    |>.component
      (ComponentBuilder.new ⟨"org.linuxlibertine.LinuxLibertine"⟩
          (TranslatableString.with_default "Linux Libertine")
        |>.kind .Font
        |>.summary (TranslatableString.with_default "Linux Libertine Open fonts")
        |>.provide (.Font "LinLibertine_M.otf")
        |>.build)
    |>.build)

/-- The value of the last element of a localized sequence whose key (locale
tag, or the reserved default key when untagged) equals the given tag. -/
def lastKeyVal : List LocElem → String → Option String
  | [], _ => none
  | e :: rest, t =>
      match lastKeyVal rest t with
      | some v => some v
      | none => if t = e.1.getD "default" then some e.2 else none

/-- The value of the last element of a localized sequence tagged with exactly
the given locale tag. -/
def lastTagged : List LocElem → String → Option String
  | [], _ => none
  | e :: rest, t =>
      match lastTagged rest t with
      | some v => some v
      | none => if e.1 = some t then some e.2 else none

/-- A sample identifier for concrete instantiations. -/
def sampleId : AppId := ⟨"org.example.Sample"⟩

/-- A sample component built through the builder layer. -/
def sampleComponent : Component :=
  (ComponentBuilder.new sampleId (TranslatableString.with_default "Sample")).build

/-- A sample collection holding the sample component. -/
def sampleCollection : Collection :=
  ⟨"0.8", none, [sampleComponent]⟩

theorem assocFind_insertSorted {α : Type} (l : List (String × α)) (k t : String) (v : α) :
    assocFind (insertSorted l k v) t = if t = k then some v else assocFind l t := by
  induction l with
  | nil =>
      by_cases ht : t = k <;> simp [insertSorted, assocFind, ht]
  | cons p rest ih =>
      obtain ⟨k', v'⟩ := p
      by_cases h1 : k = k'
      · subst h1
        by_cases ht : t = k <;> simp [insertSorted, assocFind, ht]
      · by_cases h2 : k < k'
        · by_cases ht : t = k
          · simp [insertSorted, h1, h2, assocFind, ht]
          · by_cases ht' : t = k' <;> simp [insertSorted, h1, h2, assocFind, ht, ht']
        · by_cases ht' : t = k'
          · subst ht'
            have hkt : ¬ t = k := fun hh => h1 hh.symm
            simp [insertSorted, h1, h2, assocFind, hkt]
          · by_cases ht : t = k
            · subst ht
              simp [insertSorted, h1, h2, assocFind, ht', ih]
            · simp [insertSorted, h1, h2, assocFind, ht, ht', ih]

theorem assocFind_merge_fold (elems : List LocElem) :
    ∀ (acc : List (String × String)) (t : String),
    assocFind (elems.foldl (fun a e => insertSorted a (e.1.getD "default") e.2) acc) t =
      match lastKeyVal elems t with
      | some v => some v
      | none => assocFind acc t := by
  induction elems with
  | nil => intro acc t; simp [lastKeyVal]
  | cons e rest ih =>
      intro acc t
      simp only [List.foldl_cons, lastKeyVal]
      rw [ih]
      cases lastKeyVal rest t with
      | some v => simp
      | none =>
          simp only [assocFind_insertSorted]
          by_cases ht : t = e.1.getD "default" <;> simp [ht]

theorem mergeTranslatable_get (elems : List LocElem) (t : String) :
    (mergeTranslatable elems).get? t = lastKeyVal elems t := by
  unfold mergeTranslatable TranslatableString.get?
  rw [assocFind_merge_fold]
  cases lastKeyVal elems t <;> simp [assocFind]

theorem lastKeyVal_eq_lastTagged (tagged : List LocElem)
    (h : ∀ p ∈ tagged, p.1 ≠ none) (t : String) :
    lastKeyVal tagged t = lastTagged tagged t := by
  induction tagged with
  | nil => rfl
  | cons e rest ih =>
      have he : e.1 ≠ none := h e (by simp)
      have hr : ∀ p ∈ rest, p.1 ≠ none := fun p hp => h p (by simp [hp])
      obtain ⟨tag, htag⟩ : ∃ tag, e.1 = some tag := by
        cases he' : e.1 with
        | none => exact absurd he' he
        | some tag => exact ⟨tag, rfl⟩
      simp only [lastKeyVal, lastTagged, ih hr, htag, Option.getD_some]
      cases lastTagged rest t with
      | some v => simp
      | none =>
          by_cases ht : t = tag
          · simp [ht]
          · rw [if_neg ht, if_neg (by simpa using Ne.symm ht)]

theorem lastKeyVal_default_none (tagged : List LocElem)
    (h : ∀ p ∈ tagged, p.1 ≠ none ∧ p.1 ≠ some "default") :
    lastKeyVal tagged "default" = none := by
  induction tagged with
  | nil => rfl
  | cons e rest ih =>
      have he := h e (by simp)
      have hr : ∀ p ∈ rest, p.1 ≠ none ∧ p.1 ≠ some "default" :=
        fun p hp => h p (by simp [hp])
      obtain ⟨tag, htag⟩ : ∃ tag, e.1 = some tag := by
        cases he' : e.1 with
        | none => exact absurd he' he.1
        | some tag => exact ⟨tag, rfl⟩
      have htagne : tag ≠ "default" := by
        intro hc
        exact he.2 (by rw [htag, hc])
      simp only [lastKeyVal, ih hr, htag, Option.getD_some]
      rw [if_neg (Ne.symm htagne)]

theorem lastTagged_none_of_not_mem (l : List LocElem) (t : String)
    (h : some t ∉ l.map Prod.fst) : lastTagged l t = none := by
  induction l with
  | nil => rfl
  | cons e rest ih =>
      simp only [List.map_cons, List.mem_cons, not_or] at h
      simp only [lastTagged, ih h.2]
      rw [if_neg (Ne.symm h.1)]

theorem lastTagged_of_nodup_mem (l : List LocElem) (t v : String)
    (hnd : (l.map Prod.fst).Nodup) (hm : (some t, v) ∈ l) :
    lastTagged l t = some v := by
  induction l with
  | nil => cases hm
  | cons e rest ih =>
      rw [List.map_cons] at hnd
      have hparts := List.nodup_cons.mp hnd
      rcases List.mem_cons.mp hm with he | hr
      · have hfst : e.1 = some t := by rw [← he]
        have hhead : some t ∉ rest.map Prod.fst := hfst ▸ hparts.1
        rw [lastTagged, lastTagged_none_of_not_mem rest t hhead]
        rw [← he]
        simp
      · rw [lastTagged, ih hparts.2 hr]

set_option maxRecDepth 10000

theorem except_bind_ok {ε α β : Type} (x : Except ε α) (f : α → Except ε β) (b : β)
    (h : (x >>= f) = Except.ok b) : ∃ a, x = Except.ok a ∧ f a = Except.ok b := by
  cases x with
  | error e => simp [Bind.bind, Except.bind] at h
  | ok a => exact ⟨a, rfl, by simpa [Bind.bind, Except.bind] using h⟩

theorem AppId.val_eq_iff (a b : AppId) : a.val = b.val ↔ a = b := by
  cases a
  cases b
  simp

/-- C1: decoding the canonical example collection document (component
org.mozilla.Firefox of kind DesktopApplication, keywords default
internet / web / browser overridden in fr_FR to navigateur, screenshot images
with explicit widths and heights, a Binary provide firefox, two categories,
two icons, together with the PulseAudio and Linux Libertine components of the
same document) yields a Collection equal, under structural equality, to the
Collection produced by the corresponding builder call sequence. -/
theorem spec_example_decode_eq_builder :
    decodeCollection specExampleDoc = Except.ok specExampleBuilt := by
  rfl

/-- C3 counterexample: the single-segment identifier adobe-release-x86_64,
which the in-source collection tests require to be accepted, is accepted by
AppId construction although it does not satisfy the multi-segment identifier
grammar the claim states, so the claimed equivalence fails at this input. -/
theorem appid_single_segment_counterexample :
    AppId.try_from "adobe-release-x86_64" = Except.ok ⟨"adobe-release-x86_64"⟩
    ∧ specIdGrammar "adobe-release-x86_64" = false := by
  exact ⟨rfl, rfl⟩

/-- C3 amended: AppId construction from a string succeeds exactly when the
string is non-empty and made of allowed identifier characters (the
multi-segment requirement does not hold on the code, whose tests accept
single-segment identifiers); on failure the result is a ValidationError
naming the input, and on success the identifier wraps the input verbatim;
org.mozilla.Firefox is accepted. -/
theorem appid_try_from_charset (s : String) :
    ((∃ id, AppId.try_from s = Except.ok id) ↔
      (!s.data.isEmpty && s.data.all isIdChar) = true)
    ∧ ((!s.data.isEmpty && s.data.all isIdChar) = false →
        AppId.try_from s = Except.error (.validationError s))
    ∧ (∀ id, AppId.try_from s = Except.ok id → id = ⟨s⟩) := by
  by_cases hc : (!s.data.isEmpty && s.data.all isIdChar) = true
  · refine ⟨⟨fun _ => hc, fun _ => ⟨⟨s⟩, by simp [AppId.try_from, hc]⟩⟩, ?_, ?_⟩
    · intro hf
      rw [hc] at hf
      cases hf
    · intro id hid
      simp [AppId.try_from, hc] at hid
      rw [← hid]
  · have hc' : (!s.data.isEmpty && s.data.all isIdChar) = false :=
      Bool.eq_false_iff.mpr hc
    refine ⟨⟨?_, fun ht => absurd ht hc⟩, fun _ => by simp [AppId.try_from, hc'], ?_⟩
    · rintro ⟨id, hid⟩
      simp [AppId.try_from, hc'] at hid
    · intro id hid
      simp [AppId.try_from, hc'] at hid

/-- C3 witness: the reverse-domain identifier org.mozilla.Firefox is accepted
and a string holding a space character is rejected with a ValidationError. -/
theorem appid_try_from_charset_witness :
    AppId.try_from "org.mozilla.Firefox" = Except.ok ⟨"org.mozilla.Firefox"⟩
    ∧ AppId.try_from "org mozilla" = Except.error (.validationError "org mozilla") := by
  refine ⟨?_, (appid_try_from_charset "org mozilla").2.1 (by decide)⟩
  obtain ⟨id, hid⟩ := (appid_try_from_charset "org.mozilla.Firefox").1.mpr (by decide)
  have hval := (appid_try_from_charset "org.mozilla.Firefox").2.2 id hid
  rw [hval] at hid
  exact hid

/-- C4: merging a same-named localized sequence whose first element is
untagged and whose remaining elements carry locale tags yields the untagged
content as the default; under distinct tags each locale's override equals its
element's content (the statement quantifies over every such list, hence is
independent of the order of the tagged elements); and in general a locale's
override equals the value of the last element carrying that tag, so of two
elements with the same tag the later one is retained. -/
theorem translatable_merge_deterministic
    (d : String) (tagged : List LocElem)
    (h : ∀ p ∈ tagged, p.1 ≠ none ∧ p.1 ≠ some "default") :
    ((mergeTranslatable ((none, d) :: tagged)).get? "default" = some d)
    ∧ ((tagged.map Prod.fst).Nodup → ∀ t v, (some t, v) ∈ tagged →
        (mergeTranslatable ((none, d) :: tagged)).get? t = some v)
    ∧ (∀ t, t ≠ "default" →
        (mergeTranslatable ((none, d) :: tagged)).get? t = lastTagged tagged t) := by
  have hne : ∀ p ∈ tagged, p.1 ≠ none := fun p hp => (h p hp).1
  have key : ∀ t, (mergeTranslatable ((none, d) :: tagged)).get? t =
      match lastKeyVal tagged t with
      | some v => some v
      | none => if t = "default" then some d else none := by
    intro t
    rw [mergeTranslatable_get]
    simp only [lastKeyVal, Option.getD_none]
  refine ⟨?_, ?_, ?_⟩
  · rw [key "default", lastKeyVal_default_none tagged h]
    simp
  · intro hnd t v hm
    rw [key t, lastKeyVal_eq_lastTagged tagged hne,
        lastTagged_of_nodup_mem tagged t v hnd hm]
  · intro t ht
    rw [key t, lastKeyVal_eq_lastTagged tagged hne]
    cases lastTagged tagged t with
    | some v => rfl
    | none => simp [ht]

/-- C4 witness: a concrete merge of an untagged element followed by two
distinctly tagged elements, checked on the default and on one locale. -/
theorem translatable_merge_deterministic_witness :
    (mergeTranslatable [(none, "Hello"), (some "fr_FR", "Bonjour"), (some "de", "Hallo")]).get?
        "default" = some "Hello"
    ∧ (mergeTranslatable [(none, "Hello"), (some "fr_FR", "Bonjour"), (some "de", "Hallo")]).get?
        "de" = some "Hallo" := by
  have h := translatable_merge_deterministic "Hello"
    [(some "fr_FR", "Bonjour"), (some "de", "Hallo")] (by decide)
  exact ⟨h.1, h.2.1 (by decide) "de" "Hallo" (by decide)⟩

/-- C5: for every open-enum field, decoding an unrecognized token never
fails — it yields the catch-all variant carrying the raw token verbatim —
and re-encoding that catch-all variant reproduces the original token
exactly. -/
theorem open_enum_unknown_roundtrip (t payload : String) (u : Url) (w h : Option Nat) :
    (Category.isKnownTok t = false →
      Category.decode t = .Unknown t ∧ (Category.decode t).encode = t)
    ∧ (ComponentKind.isKnownTok t = false →
      ComponentKind.decode t = .Unknown t ∧ (ComponentKind.decode t).encode = t)
    ∧ (ImageKind.isKnownTok t = false →
      ImageKind.decode t = .Unknown t ∧ (ImageKind.decode t).encode = t)
    ∧ (Icon.isKnownKind t = false →
      Icon.decode t payload w h = Except.ok (.Unknown t payload)
        ∧ (Icon.Unknown t payload).kindToken = t)
    ∧ (ProjectUrl.isKnownKind t = false →
      ProjectUrl.decode t u = .Unknown t u ∧ (ProjectUrl.decode t u).kindToken = t)
    ∧ (Provide.isKnownKind t = false →
      Provide.decode t payload = .Unknown t payload
        ∧ (Provide.decode t payload).kindToken = t) := by
  refine ⟨?_, ?_, ?_, ?_, ?_, ?_⟩
  · intro hk
    unfold Category.isKnownTok at hk
    have hd : Category.decode t = .Unknown t := by
      unfold Category.decode
      cases hf : assocFind categoryTable t with
      | none => simp
      | some c => rw [hf] at hk; simp at hk
    exact ⟨hd, by rw [hd]; rfl⟩
  · intro hk
    unfold ComponentKind.isKnownTok at hk
    have hd : ComponentKind.decode t = .Unknown t := by
      unfold ComponentKind.decode
      cases hf : assocFind componentKindTable t with
      | none => simp
      | some c => rw [hf] at hk; simp at hk
    exact ⟨hd, by rw [hd]; rfl⟩
  · intro hk
    unfold ImageKind.isKnownTok at hk
    have hd : ImageKind.decode t = .Unknown t := by
      unfold ImageKind.decode
      cases hf : assocFind imageKindTable t with
      | none => simp
      | some c => rw [hf] at hk; simp at hk
    exact ⟨hd, by rw [hd]; rfl⟩
  · intro hk
    unfold Icon.isKnownKind at hk
    simp only [Bool.or_eq_false_iff, beq_eq_false_iff_ne] at hk
    obtain ⟨⟨⟨h1, h2⟩, h3⟩, h4⟩ := hk
    refine ⟨?_, rfl⟩
    unfold Icon.decode
    rw [if_neg h1, if_neg h2, if_neg h3, if_neg h4]
  · intro hk
    unfold ProjectUrl.isKnownKind at hk
    simp only [Bool.or_eq_false_iff, beq_eq_false_iff_ne] at hk
    obtain ⟨⟨⟨⟨⟨⟨h1, h2⟩, h3⟩, h4⟩, h5⟩, h6⟩, h7⟩ := hk
    have hd : ProjectUrl.decode t u = .Unknown t u := by
      unfold ProjectUrl.decode
      rw [if_neg h1, if_neg h2, if_neg h3, if_neg h4, if_neg h5, if_neg h6, if_neg h7]
    exact ⟨hd, by rw [hd]; rfl⟩
  · intro hk
    unfold Provide.isKnownKind at hk
    simp only [Bool.or_eq_false_iff, beq_eq_false_iff_ne] at hk
    obtain ⟨⟨⟨⟨⟨⟨⟨⟨h1, h2⟩, h3⟩, h4⟩, h5⟩, h6⟩, h7⟩, h8⟩, h9⟩ := hk
    have hd : Provide.decode t payload = .Unknown t payload := by
      unfold Provide.decode
      rw [if_neg h1, if_neg h2, if_neg h3, if_neg h4, if_neg h5, if_neg h6, if_neg h7,
          if_neg h8, if_neg h9]
    exact ⟨hd, by rw [hd]; rfl⟩

/-- C5 witness: the vendor token webbrowser, which the example document uses
as a category, is unrecognized by every open enumeration, decodes to the
catch-all and re-encodes to itself. -/
theorem open_enum_unknown_roundtrip_witness :
    Category.decode "webbrowser" = .Unknown "webbrowser"
    ∧ (Category.decode "webbrowser").encode = "webbrowser"
    ∧ Provide.decode "webbrowser" "p" = .Unknown "webbrowser" "p"
    ∧ (Provide.decode "webbrowser" "p").kindToken = "webbrowser" := by
  have h := open_enum_unknown_roundtrip "webbrowser" "p" ⟨"https://example.org/x"⟩ none none
  obtain ⟨hcat, -, -, -, -, hprov⟩ := h
  obtain ⟨h1, h2⟩ := hcat (by rfl)
  obtain ⟨h3, h4⟩ := hprov (by rfl)
  exact ⟨h1, h2, h3, h4⟩

/-- C6: find_by_id returns exactly the components whose identifier equals the
given id, in document order (a sublist of the component sequence), keeping
every duplicate (multiplicities of matching components are preserved), and an
id carried by no component returns the empty result. -/
theorem find_by_id_spec (c : Collection) (id : AppId) :
    (List.Sublist (c.find_by_id id) c.components)
    ∧ (∀ comp ∈ c.find_by_id id, comp.id = id)
    ∧ (∀ comp ∈ c.components, comp.id = id → comp ∈ c.find_by_id id)
    ∧ (∀ comp : Component, comp.id = id →
        List.count comp (c.find_by_id id) = List.count comp c.components)
    ∧ ((∀ comp ∈ c.components, comp.id ≠ id) → c.find_by_id id = []) := by
  have hid : ∀ comp : Component, (comp.id.val == id.val) = true ↔ comp.id = id := by
    intro comp
    rw [beq_iff_eq, AppId.val_eq_iff]
  refine ⟨?_, ?_, ?_, ?_, ?_⟩
  · exact List.filter_sublist c.components
  · intro comp hm
    exact (hid comp).mp (List.mem_filter.mp hm).2
  · intro comp hm he
    exact List.mem_filter.mpr ⟨hm, (hid comp).mpr he⟩
  · intro comp he
    unfold Collection.find_by_id
    induction c.components with
    | nil => rfl
    | cons x xs ih =>
        by_cases hx : (x.id.val == id.val) = true
        · simp only [List.filter_cons, hx, if_true, List.count_cons, ih]
        · have hxne : (x == comp) = false := by
            apply beq_eq_false_iff_ne.mpr
            intro hxc
            exact hx ((hid x).mpr (by rw [hxc, he]))
          have hx' : (x.id.val == id.val) = false := Bool.eq_false_iff.mpr hx
          simp only [List.filter_cons, hx', Bool.false_eq_true, if_false,
            List.count_cons, ih, hxne]
          simp [hxne]
  · intro hnone
    unfold Collection.find_by_id
    rw [List.filter_eq_nil_iff]
    intro a ha
    intro hb
    exact hnone a ha ((hid a).mp hb)

/-- C6 witness: a lookup by an identifier carried by no component of the
sample collection returns the empty result. -/
theorem find_by_id_spec_witness :
    sampleCollection.find_by_id ⟨"org.example.Other"⟩ = [] := by
  exact (find_by_id_spec sampleCollection ⟨"org.example.Other"⟩).2.2.2.2 (by decide)

theorem collection_fold_version (ops : List CollectionOp) :
    ∀ b : CollectionBuilder, (ops.foldl CollectionBuilder.applyOp b).c.version = b.c.version := by
  induction ops with
  | nil => intro b; rfl
  | cons op rest ih =>
      intro b
      rw [List.foldl_cons, ih]
      cases op <;> rfl

theorem component_fold_id_name (cops : List ComponentOp) :
    ∀ b : ComponentBuilder, (cops.foldl ComponentBuilder.applyOp b).c.id = b.c.id
      ∧ (cops.foldl ComponentBuilder.applyOp b).c.name = b.c.name := by
  induction cops with
  | nil => intro b; exact ⟨rfl, rfl⟩
  | cons op rest ih =>
      intro b
      rw [List.foldl_cons]
      refine ⟨?_, ?_⟩
      · rw [(ih _).1]
        cases op <;> rfl
      · rw [(ih _).2]
        cases op <;> rfl

/-- C9: builders are total — for any sequence of setter calls on
pre-validated typed arguments the terminal build step always produces an
entity (build never returns an error, it is a plain function into the entity
type), the collection builder keeps its required version, and the component
builder keeps its required identifier and default name. -/
theorem builders_total_build (v : String) (ops : List CollectionOp)
    (id : AppId) (nm : TranslatableString) (cops : List ComponentOp)
    (sops : List ScreenshotOp) :
    ((ops.foldl CollectionBuilder.applyOp (CollectionBuilder.new v)).build.version = v)
    ∧ ((cops.foldl ComponentBuilder.applyOp (ComponentBuilder.new id nm)).build.id = id)
    ∧ ((cops.foldl ComponentBuilder.applyOp (ComponentBuilder.new id nm)).build.name = nm)
    ∧ (∃ s : Screenshot, (sops.foldl ScreenshotBuilder.applyOp ScreenshotBuilder.new).build = s)
    ∧ (∃ coll : Collection,
        (ops.foldl CollectionBuilder.applyOp (CollectionBuilder.new v)).build = coll) := by
  refine ⟨?_, ?_, ?_, ⟨_, rfl⟩, ⟨_, rfl⟩⟩
  · exact collection_fold_version ops (CollectionBuilder.new v)
  · exact (component_fold_id_name cops (ComponentBuilder.new id nm)).1
  · exact (component_fold_id_name cops (ComponentBuilder.new id nm)).2

theorem decodeScreenshot_is_default (n : Node) (s : Screenshot)
    (h : decodeScreenshot n = Except.ok s) :
    s.is_default =
      match n.attr? "type" with
      | none => false
      | some t => screenshot_type_deserialize t := by
  unfold decodeScreenshot at h
  obtain ⟨imgs, h1, h2⟩ := except_bind_ok _ _ _ h
  obtain ⟨vids, h3, h4⟩ := except_bind_ok _ _ _ h2
  simp only [pure, Except.pure, Except.ok.injEq] at h4
  rw [← h4]

/-- C2 counterexample: a screenshot element with the type attribute entirely
absent decodes successfully with is_default = false (the serde field default
for bool), not true as the claim states; the in-source screenshot_video test
pins this behavior. -/
theorem screenshot_absent_type_counterexample :
    decodeScreenshot (el "screenshot" [] []) = Except.ok ⟨false, none, [], []⟩
    ∧ ¬ ∃ s, decodeScreenshot (el "screenshot" [] []) = Except.ok s
        ∧ s.is_default = true := by
  refine ⟨rfl, ?_⟩
  rintro ⟨s, hs, hd⟩
  have h0 : decodeScreenshot (el "screenshot" [] []) = Except.ok ⟨false, none, [], []⟩ := rfl
  rw [h0] at hs
  injection hs with hs'
  rw [← hs'] at hd
  exact Bool.false_ne_true hd

/-- C2 amended: decoding a screenshot element sets is_default = false when
the type attribute is entirely absent (the serde default of the bool field),
false when the attribute carries an explicit non-default discriminator, and
true exactly for the default discriminator. -/
theorem screenshot_is_default_decode (n : Node) :
    (n.attr? "type" = none →
      ∀ s, decodeScreenshot n = Except.ok s → s.is_default = false)
    ∧ (∀ tok, n.attr? "type" = some tok → tok ≠ "default" →
      ∀ s, decodeScreenshot n = Except.ok s → s.is_default = false)
    ∧ (n.attr? "type" = some "default" →
      ∀ s, decodeScreenshot n = Except.ok s → s.is_default = true) := by
  refine ⟨?_, ?_, ?_⟩
  · intro ha s hs
    rw [decodeScreenshot_is_default n s hs, ha]
  · intro tok ha htok s hs
    rw [decodeScreenshot_is_default n s hs, ha]
    simpa [screenshot_type_deserialize] using htok
  · intro ha s hs
    rw [decodeScreenshot_is_default n s hs, ha]
    rfl

/-- C2 witness: concrete screenshot elements without a type attribute and
with the default discriminator, decoded and checked. -/
theorem screenshot_is_default_decode_witness :
    (∃ s, decodeScreenshot (el "screenshot" [] []) = Except.ok s ∧ s.is_default = false)
    ∧ (∃ s, decodeScreenshot (el "screenshot" [("type", "default")] []) = Except.ok s
        ∧ s.is_default = true) := by
  constructor
  · refine ⟨⟨false, none, [], []⟩, rfl, ?_⟩
    exact (screenshot_is_default_decode (el "screenshot" [] [])).1 rfl _ rfl
  · refine ⟨⟨true, none, [], []⟩, rfl, ?_⟩
    exact (screenshot_is_default_decode (el "screenshot" [("type", "default")] [])).2.2 rfl _ rfl

/-- C7 counterexample: an image element without the type attribute fails to
decode with a missing-required-field error (the kind field has no serde
default in the source), instead of decoding to the source kind variant as
the claim states. -/
theorem image_absent_type_counterexample :
    decodeImage (el "image" [] [.text "https://example.org/main.png"]) =
      Except.error (.missingRequiredField "type")
    ∧ ¬ ∃ img, decodeImage (el "image" [] [.text "https://example.org/main.png"]) =
        Except.ok img ∧ img.kind = ImageKind.Source := by
  refine ⟨rfl, ?_⟩
  rintro ⟨img, h, -⟩
  have h0 : decodeImage (el "image" [] [.text "https://example.org/main.png"]) =
      Except.error (.missingRequiredField "type") := rfl
  rw [h0] at h
  exact Except.noConfusion h

/-- C7 amended: an image element whose type attribute is absent fails to
decode with a missing-required-field error; when decoding succeeds, each
image carries its own independent optional width and height (an absent
dimension attribute decodes to none) and its kind is the decode of its own
type token. -/
theorem image_decode_kind_and_dims (n : Node) :
    (n.attr? "type" = none →
      decodeImage n = Except.error (.missingRequiredField "type"))
    ∧ (∀ img, decodeImage n = Except.ok img →
        (n.attr? "width" = none → img.width = none)
        ∧ (n.attr? "height" = none → img.height = none)
        ∧ (∀ tok, n.attr? "type" = some tok → img.kind = ImageKind.decode tok)) := by
  constructor
  · intro ha
    unfold decodeImage reqAttr
    rw [ha]
    rfl
  · intro img h
    unfold decodeImage at h
    obtain ⟨kindTok, h1, h2⟩ := except_bind_ok _ _ _ h
    obtain ⟨w, h3, h4⟩ := except_bind_ok _ _ _ h2
    obtain ⟨hgt, h5, h6⟩ := except_bind_ok _ _ _ h4
    obtain ⟨body, h7, h8⟩ := except_bind_ok _ _ _ h6
    obtain ⟨url, h9, h10⟩ := except_bind_ok _ _ _ h8
    simp only [pure, Except.pure, Except.ok.injEq] at h10
    refine ⟨?_, ?_, ?_⟩
    · intro hw
      simp only [decodeOptNat, hw, Except.ok.injEq] at h3
      rw [← h10]
      exact h3.symm
    · intro hh
      simp only [decodeOptNat, hh, Except.ok.injEq] at h5
      rw [← h10]
      exact h5.symm
    · intro tok hktok
      simp only [reqAttr, hktok, Except.ok.injEq] at h1
      rw [← h10, h1]

/-- C7 witness: an image element without the type attribute errors, and one
with a thumbnail token and no dimension attributes decodes with independent
none dimensions and the thumbnail kind. -/
theorem image_decode_kind_and_dims_witness :
    decodeImage (el "image" [] []) = Except.error (.missingRequiredField "type")
    ∧ ∃ img, decodeImage (el "image" [("type", "thumbnail")] [.text "https://example.org/a.png"]) =
        Except.ok img ∧ img.width = none ∧ img.kind = ImageKind.Thumbnail := by
  refine ⟨(image_decode_kind_and_dims (el "image" [] [])).1 rfl, ?_⟩
  refine ⟨⟨.Thumbnail, none, none, ⟨"https://example.org/a.png"⟩⟩, rfl, ?_, ?_⟩
  · exact ((image_decode_kind_and_dims
      (el "image" [("type", "thumbnail")] [.text "https://example.org/a.png"])).2 _ rfl).1 rfl
  · exact ((image_decode_kind_and_dims
      (el "image" [("type", "thumbnail")] [.text "https://example.org/a.png"])).2 _ rfl).2.2
      "thumbnail" rfl

/-- C8: collection decoding treats the version attribute as required (absent
version is a missing-required-field error) while an absent origin attribute
decodes to none and an absent component sequence decodes to the empty list,
never an error. -/
theorem collection_decode_required_optional (n : Node) :
    (n.attr? "version" = none →
      decodeCollection n = Except.error (.missingRequiredField "version"))
    ∧ (∀ c, decodeCollection n = Except.ok c →
        (n.attr? "origin" = none → c.origin = none)
        ∧ (n.childrenNamed "component" = [] → c.components = [])) := by
  constructor
  · intro ha
    unfold decodeCollection reqAttr
    rw [ha]
    rfl
  · intro c h
    unfold decodeCollection at h
    obtain ⟨v, h1, h2⟩ := except_bind_ok _ _ _ h
    obtain ⟨comps, h3, h4⟩ := except_bind_ok _ _ _ h2
    simp only [pure, Except.pure, Except.ok.injEq] at h4
    constructor
    · intro ho
      rw [← h4, ho]
    · intro hc
      rw [hc] at h3
      simp only [List.mapM_nil, pure, Except.pure, Except.ok.injEq] at h3
      rw [← h4]
      exact h3.symm

/-- C8 witness: a collection element without version errors, and one with a
version, no origin and no component children decodes to a collection with
none origin and the empty component list. -/
theorem collection_decode_required_optional_witness :
    decodeCollection (el "components" [] []) =
      Except.error (.missingRequiredField "version")
    ∧ ∃ c, decodeCollection (el "components" [("version", "0.9")] []) = Except.ok c
        ∧ c.origin = none ∧ c.components = [] := by
  refine ⟨(collection_decode_required_optional (el "components" [] [])).1 rfl, ?_⟩
  refine ⟨⟨"0.9", none, []⟩, rfl, ?_, ?_⟩
  · exact ((collection_decode_required_optional
      (el "components" [("version", "0.9")] [])).2 _ rfl).1 rfl
  · exact ((collection_decode_required_optional
      (el "components" [("version", "0.9")] [])).2 _ rfl).2 rfl

/-- C10: decoding a video element yields none for each of width, height,
codec and container when the corresponding attribute is absent, while the URL
carried as the element body is required — decoding cannot succeed when the
body is absent or is not a grammatical URL. -/
theorem video_decode_fields (n : Node) :
    (∀ v, decodeVideo n = Except.ok v →
        (n.attr? "width" = none → v.width = none)
        ∧ (n.attr? "height" = none → v.height = none)
        ∧ (n.attr? "codec" = none → v.codec = none)
        ∧ (n.attr? "container" = none → v.container = none))
    ∧ (n.bodyText? = none → ∀ v, decodeVideo n ≠ Except.ok v)
    ∧ (∀ b, n.bodyText? = some b → validUrl b = false →
        ∀ v, decodeVideo n ≠ Except.ok v) := by
  refine ⟨?_, ?_, ?_⟩
  · intro v h
    unfold decodeVideo at h
    obtain ⟨w, h1, h2⟩ := except_bind_ok _ _ _ h
    obtain ⟨hgt, h3, h4⟩ := except_bind_ok _ _ _ h2
    obtain ⟨body, h5, h6⟩ := except_bind_ok _ _ _ h4
    obtain ⟨url, h7, h8⟩ := except_bind_ok _ _ _ h6
    simp only [pure, Except.pure, Except.ok.injEq] at h8
    refine ⟨?_, ?_, ?_, ?_⟩
    · intro hw
      simp only [decodeOptNat, hw, Except.ok.injEq] at h1
      rw [← h8]
      exact h1.symm
    · intro hh
      simp only [decodeOptNat, hh, Except.ok.injEq] at h3
      rw [← h8]
      exact h3.symm
    · intro hc
      rw [← h8]
      exact hc
    · intro hc
      rw [← h8]
      exact hc
  · intro hb v h
    unfold decodeVideo at h
    obtain ⟨w, h1, h2⟩ := except_bind_ok _ _ _ h
    obtain ⟨hgt, h3, h4⟩ := except_bind_ok _ _ _ h2
    obtain ⟨body, h5, h6⟩ := except_bind_ok _ _ _ h4
    simp only [reqBody, hb] at h5
    exact Except.noConfusion h5
  · intro b hb hbad v h
    unfold decodeVideo at h
    obtain ⟨w, h1, h2⟩ := except_bind_ok _ _ _ h
    obtain ⟨hgt, h3, h4⟩ := except_bind_ok _ _ _ h2
    obtain ⟨body, h5, h6⟩ := except_bind_ok _ _ _ h4
    obtain ⟨url, h7, h8⟩ := except_bind_ok _ _ _ h6
    simp only [reqBody, hb, Except.ok.injEq] at h5
    rw [← h5] at h7
    simp only [Url.parse, hbad] at h7
    exact Except.noConfusion h7

/-- C10 witness: a video element with only a codec attribute and a valid URL
body decodes with none width, height and container; one without a body and
one with an ungrammatical body both fail. -/
theorem video_decode_fields_witness :
    (∃ v, decodeVideo (el "video" [("codec", "av1")] [.text "https://example.com/a.mkv"]) =
        Except.ok v ∧ v.width = none ∧ v.container = none)
    ∧ decodeVideo (el "video" [] []) ≠
        Except.ok ⟨none, none, none, none, ⟨"https://example.com/a.mkv"⟩⟩
    ∧ decodeVideo (el "video" [] [.text "not a url"]) ≠
        Except.ok ⟨none, none, none, none, ⟨"not a url"⟩⟩ := by
  refine ⟨?_, ?_, ?_⟩
  · refine ⟨⟨none, none, some "av1", none, ⟨"https://example.com/a.mkv"⟩⟩, rfl, ?_, ?_⟩
    · exact ((video_decode_fields
        (el "video" [("codec", "av1")] [.text "https://example.com/a.mkv"])).1 _ rfl).1 rfl
    · exact ((video_decode_fields
        (el "video" [("codec", "av1")] [.text "https://example.com/a.mkv"])).1 _ rfl).2.2.2 rfl
  · exact (video_decode_fields (el "video" [] [])).2.1 rfl _
  · exact (video_decode_fields (el "video" [] [.text "not a url"])).2.2 "not a url" rfl rfl _
